import Mathlib

/-!
Verification of the scoped request-context store of `fastapi-request-context`.

The development shallowly embeds the repository's Python code:

* `ContextVarsAdapter` — from
  `src/.history/fastapi_request_context/adapters/contextvars_20251128203915.py`
  (the most recent revision of the default adapter in the repository).
  Python dicts keyed by strings become association lists with the
  update-in-place / append semantics of dict assignment; the module-level
  `ContextVar[ContextDict | None]` with `default=None` becomes an
  `Option ContextDict` per logical task; operations that can raise return
  a `PyResult`.
* `ContextLoggingAdapter` — the scope-control logic of
  `src/.history/fastapi_request_context/adapters/context_logging_20251128203653.py`
  (the `_context_manager` None-check protocol).
* `RequestContextMiddleware` — the header policy of
  `src/.history/fastapi_request_context/middleware_20251128211125.py`
  (`_get_header_value` and the request/correlation id selection in
  `__call__`, including Python's falsy `or`).
* The taskiq boundary codec and the exception-enrichment exit are present
  in the repository only through their tests
  (`src/tests/contrib/test_taskiq_middleware.py`,
  `src/tests/adapters/test_contextvars.py`); those operations are modelled
  from the specification, and each such definition says so in its doc
  comment.
-/

/-- A context value. The store is type-agnostic; a small closed universe of
values (strings, integers, booleans) suffices for every claim, since no
operation of the embedded code inspects a value. -/
inductive Val : Type
  | vstr : String → Val
  | vint : Int → Val
  | vbool : Bool → Val
deriving DecidableEq, Repr

/-- A Python `dict[str, ...]` as an association list with unique keys kept in
insertion order. -/
abbrev AssocDict (α : Type) : Type := List (String × α)

/-- Python dict assignment `d[k] = v`: replaces the value at an existing key
in place, otherwise appends the new binding at the end. -/
def dict_set {α : Type} : AssocDict α → String → α → AssocDict α
  | [], k, v => [(k, v)]
  | (k', v') :: rest, k, v =>
    if k' = k then (k, v) :: rest else (k', v') :: dict_set rest k v

/-- Python `d.get(k)`: the value at `k`, or `none` when the key is absent. -/
def dict_get {α : Type} : AssocDict α → String → Option α
  | [], _ => none
  | (k', v') :: rest, k => if k' = k then some v' else dict_get rest k

/-- The context map stored by the adapters: `ContextDict` in
`fastapi_request_context/types.py`. -/
abbrev ContextDict : Type := AssocDict Val

/-- Result of a Python call that may raise. -/
inductive PyResult (α : Type) : Type
  | ok : α → PyResult α
  | exc : String → PyResult α
deriving DecidableEq, Repr

namespace ContextVarsAdapter

/-- The state visible to one logical task: the value of the module-level
`_context_var : ContextVar[ContextDict | None]` (`default=None`) of
`contextvars_20251128203915.py`. `none` means the variable was never set in
this task. -/
structure State : Type where
  ctx : Option ContextDict
deriving DecidableEq

/-- The state of a task that never touched the context variable. -/
def initial : State := ⟨none⟩

/-- `ContextVarsAdapter.set_value`: `context = _context_var.get()` followed by
`context[key] = value`. When the variable still holds its `None` default the
item assignment raises `TypeError`. -/
def set_value (s : State) (key : String) (value : Val) : PyResult State :=
  match s.ctx with
  | none => .exc "TypeError"
  | some context => .ok ⟨some (dict_set context key value)⟩

/-- `ContextVarsAdapter.get_value`: `_context_var.get().get(key)`. When the
variable holds `None` the attribute access `.get` raises `AttributeError`. -/
def get_value (s : State) (key : String) : PyResult (Option Val) :=
  match s.ctx with
  | none => .exc "AttributeError"
  | some context => .ok (dict_get context key)

/-- `ContextVarsAdapter.get_all`: `dict(_context_var.get())`, a copy of the
stored dict. `dict(None)` raises `TypeError`. -/
def get_all (s : State) : PyResult ContextDict :=
  match s.ctx with
  | none => .exc "TypeError"
  | some context => .ok context

/-- `ContextVarsAdapter.enter_context`: `_context_var.set(dict(initial_values))`
installs a copy of the initial values as the current map. -/
def enter_context (_s : State) (initial_values : ContextDict) : State :=
  ⟨some initial_values⟩

/-- `ContextVarsAdapter.exit_context` of revision `20251128203915`:
`_context_var.set({})` — the current map is replaced by a fresh empty dict. -/
def exit_context (_s : State) : State :=
  ⟨some []⟩

end ContextVarsAdapter

namespace ContextVarsAdapter

/-- The task state after a `set_value` call when the caller absorbs a raise:
a raising call leaves the context variable untouched (the assignment never
happened), a successful call installs the updated dict. -/
def set_value_state (s : State) (key : String) (value : Val) : State :=
  match set_value s key value with
  | .ok s2 => s2
  | .exc _ => s

end ContextVarsAdapter

/-- Claim C1, counterexample: running `enter({a:"1"}); set(ua,2); enter({b:"2"});
set(ub,3); exit()` on the adapter of revision `20251128203915`, the map
observable through `get_all` right after the inner `exit` is the empty map,
not the outer scope's map `{a:"1", ua:2}` observable right before the inner
`enter`. -/
theorem c1_exit_restores_counterexample :
    ContextVarsAdapter.get_all
      (ContextVarsAdapter.exit_context
        (ContextVarsAdapter.set_value_state
          (ContextVarsAdapter.enter_context
            (ContextVarsAdapter.set_value_state
              (ContextVarsAdapter.enter_context ContextVarsAdapter.initial
                [("a", Val.vstr "1")])
              "ua" (Val.vint 2))
            [("b", Val.vstr "2")])
          "ub" (Val.vint 3)))
      ≠
    ContextVarsAdapter.get_all
      (ContextVarsAdapter.set_value_state
        (ContextVarsAdapter.enter_context ContextVarsAdapter.initial
          [("a", Val.vstr "1")])
        "ua" (Val.vint 2)) := by
  decide

/-- Claim C1 (amended): `exit_context` does not restore the map that was
active before the matching `enter_context`; it unconditionally replaces the
current map with a fresh empty dict. Hence immediately after any `exit`
(inner or outermost) every `get` returns absent and `get_all` returns the
empty map — the enclosing scope's entries are lost rather than un-wound. -/
theorem c1_exit_clears_to_empty (s : ContextVarsAdapter.State) (k : String) :
    ContextVarsAdapter.exit_context s = ⟨some []⟩ ∧
    ContextVarsAdapter.get_value (ContextVarsAdapter.exit_context s) k
      = PyResult.ok none ∧
    ContextVarsAdapter.get_all (ContextVarsAdapter.exit_context s)
      = PyResult.ok [] :=
  ⟨rfl, rfl, rfl⟩

/-- Claim C3 (code bug, evaluating the code at the failing input): in a task
where no scope was ever entered the module-level context variable still holds
its `None` default, so `set_value` evaluates `None["key"] = value` and raises
`TypeError` instead of being a no-op, `get_value` evaluates `None.get("key")`
and raises `AttributeError` instead of returning absent, and `get_all`
evaluates `dict(None)` and raises `TypeError` — contradicting the repository's
own test `test_set_value_without_context`. -/
theorem c3_outside_scope_raises :
    ContextVarsAdapter.set_value ContextVarsAdapter.initial "key" (Val.vstr "value")
      = PyResult.exc "TypeError" ∧
    ContextVarsAdapter.get_value ContextVarsAdapter.initial "key"
      = PyResult.exc "AttributeError" ∧
    ContextVarsAdapter.get_all ContextVarsAdapter.initial
      = PyResult.exc "TypeError" :=
  ⟨rfl, rfl, rfl⟩

/-- One store operation a logical task can perform on its own scope. Reads
(`get_value`, `get_all`) are pure observations of the state and need no
constructor. -/
inductive TaskOp : Type
  | tset : String → Val → TaskOp
  | tenter : ContextDict → TaskOp
  | texit : TaskOp

/-- Effect of one operation on the task's own context-variable state. -/
def ContextVarsAdapter.apply_op (s : ContextVarsAdapter.State) :
    TaskOp → ContextVarsAdapter.State
  | .tset k v => ContextVarsAdapter.set_value_state s k v
  | .tenter init => ContextVarsAdapter.enter_context s init
  | .texit => ContextVarsAdapter.exit_context s

/-- Effect of a sequence of operations run inside one logical task. -/
def ContextVarsAdapter.run_ops :
    List TaskOp → ContextVarsAdapter.State → ContextVarsAdapter.State
  | [], s => s
  | op :: rest, s => ContextVarsAdapter.run_ops rest (ContextVarsAdapter.apply_op s op)

/-- Two concurrently executing logical tasks, each with its own view of the
module-level `ContextVar`. Python's `contextvars` gives every task an
independent copy of the variable's value (the adapter of revision
`20251128203915` keeps no other mutable state: the module-level `ContextVar`
is its only storage), so a world is one `State` per task. -/
def TwoTaskWorld : Type := Bool → ContextVarsAdapter.State

/-- A scheduler step: task `t` performs `op`. Per `contextvars` semantics the
step rewrites only task `t`'s copy of the variable. -/
def step_world (w : TwoTaskWorld) (t : Bool) (op : TaskOp) : TwoTaskWorld :=
  fun b => if b = t then ContextVarsAdapter.apply_op (w t) op else w b

/-- An arbitrary cooperative interleaving of the two tasks' operations. -/
def run_world : List (Bool × TaskOp) → TwoTaskWorld → TwoTaskWorld
  | [], w => w
  | (t, op) :: rest, w => run_world rest (step_world w t op)

/-- The subsequence of an interleaved trace performed by task `t`. -/
def ops_of (t : Bool) (trace : List (Bool × TaskOp)) : List TaskOp :=
  (trace.filter (fun p => p.1 == t)).map Prod.snd

/-- After any interleaving, a task's state is exactly the state produced by
its own operations alone. -/
theorem run_world_localize (trace : List (Bool × TaskOp)) (w : TwoTaskWorld)
    (t : Bool) :
    run_world trace w t = ContextVarsAdapter.run_ops (ops_of t trace) (w t) := by
  induction trace generalizing w with
  | nil => rfl
  | cons p rest ih =>
    obtain ⟨t', op⟩ := p
    by_cases h : t' = t
    · subst h
      have hstep : step_world w t' op t' = ContextVarsAdapter.apply_op (w t') op := by
        simp [step_world]
      have hfilter : ops_of t' ((t', op) :: rest) = op :: ops_of t' rest := by
        simp [ops_of, List.filter]
      rw [run_world, ih, hstep, hfilter, ContextVarsAdapter.run_ops]
    · have hstep : step_world w t' op t = w t := by
        simp only [step_world]
        rw [if_neg (Ne.symm h)]
      have hbe : (t' == t) = false := beq_eq_false_iff_ne.mpr h
      have hfilter : ops_of t ((t', op) :: rest) = ops_of t rest := by
        simp [ops_of, List.filter, hbe]
      rw [run_world, ih, hstep, hfilter]

/-- Claim C2: cross-task isolation. For every interleaving of operations by
two concurrently executing logical tasks, what `get_value` and `get_all`
observe inside task `t` is exactly what task `t`'s own operations produced —
a `tset` (or `tenter`/`texit`) performed by the other task is never observed,
because each task owns an independent copy of the module-level `ContextVar`. -/
theorem c2_cross_task_isolation (trace : List (Bool × TaskOp))
    (w : TwoTaskWorld) (t : Bool) (k : String) :
    ContextVarsAdapter.get_value (run_world trace w t) k
      = ContextVarsAdapter.get_value
          (ContextVarsAdapter.run_ops (ops_of t trace) (w t)) k ∧
    ContextVarsAdapter.get_all (run_world trace w t)
      = ContextVarsAdapter.get_all
          (ContextVarsAdapter.run_ops (ops_of t trace) (w t)) := by
  rw [run_world_localize]
  exact ⟨rfl, rfl⟩

namespace StandardContextField

/-- `StandardContextField.REQUEST_ID` from `fields_20251128203522.py`. -/
def REQUEST_ID : String := "request_id"

/-- `StandardContextField.CORRELATION_ID` from `fields_20251128203522.py`. -/
def CORRELATION_ID : String := "correlation_id"

/-- Modelled from the spec: the standard task-identifier field (`task_id`)
seeded by the task-boundary collaborator. The revision of `fields.py`
declaring it is not in the repository snapshot; only its callers and tests
are (`src/tests/contrib/test_taskiq_middleware.py` asserts the key
`task_id` via `StandardContextField.TASK_ID.value`). -/
def TASK_ID : String := "task_id"

end StandardContextField

/-- Python `name.lower()` on a header name, at the character level. -/
def lower_name (s : String) : List Char := s.data.map Char.toLower

/-- `_get_header_value` from `middleware_20251128211125.py`: the value of the
first header whose name matches case-insensitively, else `None`. -/
def get_header_value : List (String × String) → String → Option String
  | [], _ => none
  | (name, value) :: rest, header_name =>
    if lower_name name = lower_name header_name then some value
    else get_header_value rest header_name

/-- The initial context built by `RequestContextMiddleware.__call__`
(revision `20251128211125`, lines 113-129): `request_id` is always the fresh
generator output and no header is consulted for it; `correlation_id` is
`_get_header_value(scope, header) or generator()` — Python's `or`, under
which a present-but-empty header value is falsy and replaced by the
generated value. The two generator outputs are parameters because they are
nondeterministic `uuid4` calls. -/
def initial_request_context (headers : List (String × String))
    (correlation_id_header : String)
    (request_id_gen correlation_id_gen : String) : ContextDict :=
  let correlation_id :=
    match get_header_value headers correlation_id_header with
    | some v => if v = "" then correlation_id_gen else v
    | none => correlation_id_gen
  [(StandardContextField.REQUEST_ID, Val.vstr request_id_gen),
   (StandardContextField.CORRELATION_ID, Val.vstr correlation_id)]

/-- Claim C8, counterexample: an inbound correlation header that is present
(case-insensitive match succeeds, value `""`) is nevertheless replaced by the
generated value, because Python's `or` treats the empty string as absent —
so `correlation_id` does not equal the inbound header's value although the
header is present. -/
theorem c8_header_policy_counterexample :
    get_header_value [("X-Correlation-Id", "")] "X-Correlation-Id" = some "" ∧
    dict_get
      (initial_request_context [("X-Correlation-Id", "")] "X-Correlation-Id"
        "rid-1" "gen-1")
      StandardContextField.CORRELATION_ID = some (Val.vstr "gen-1") ∧
    Val.vstr "gen-1" ≠ Val.vstr "" := by
  decide

/-- Claim C8 (amended): for every processed request, `request_id` is the
fresh generator output whatever the inbound headers are (so two requests
differing only in an inbound request-id header each still get the generated
value), while `correlation_id` equals the inbound correlation header's value
whenever that header is present with a non-empty value under
case-insensitive name matching, and is freshly generated when the header is
absent or its value is empty. -/
theorem c8_header_policy_amended (headers : List (String × String))
    (corr_header rid_gen cid_gen : String) :
    dict_get (initial_request_context headers corr_header rid_gen cid_gen)
      StandardContextField.REQUEST_ID = some (Val.vstr rid_gen) ∧
    (∀ v, get_header_value headers corr_header = some v → v ≠ "" →
      dict_get (initial_request_context headers corr_header rid_gen cid_gen)
        StandardContextField.CORRELATION_ID = some (Val.vstr v)) ∧
    (get_header_value headers corr_header = none →
      dict_get (initial_request_context headers corr_header rid_gen cid_gen)
        StandardContextField.CORRELATION_ID = some (Val.vstr cid_gen)) ∧
    (get_header_value headers corr_header = some "" →
      dict_get (initial_request_context headers corr_header rid_gen cid_gen)
        StandardContextField.CORRELATION_ID = some (Val.vstr cid_gen)) ∧
    (∀ name value rest, lower_name name = lower_name corr_header →
      get_header_value ((name, value) :: rest) corr_header = some value) := by
  have hne : StandardContextField.REQUEST_ID ≠ StandardContextField.CORRELATION_ID := by
    decide
  refine ⟨?_, ?_, ?_, ?_, ?_⟩
  · simp [initial_request_context, dict_get]
  · intro v hv hv0
    simp [initial_request_context, dict_get, hne, hv, hv0]
  · intro hv
    simp [initial_request_context, dict_get, hne, hv]
  · intro hv
    simp [initial_request_context, dict_get, hne, hv]
  · intro name value rest hmatch
    simp [get_header_value, hmatch]

/-- Witness for claim C8: at the concrete request whose only header is
`x-CORRELATION-id: c7`, the amended theorem yields `correlation_id = "c7"`
(case-insensitive acceptance) and `request_id = "r1"` (the generated value). -/
theorem c8_header_policy_amended_witness :
    dict_get
      (initial_request_context [("x-CORRELATION-id", "c7")] "X-Correlation-Id"
        "r1" "g1")
      StandardContextField.CORRELATION_ID = some (Val.vstr "c7") ∧
    dict_get
      (initial_request_context [("x-CORRELATION-id", "c7")] "X-Correlation-Id"
        "r1" "g1")
      StandardContextField.REQUEST_ID = some (Val.vstr "r1") := by
  have h := c8_header_policy_amended [("x-CORRELATION-id", "c7")]
    "X-Correlation-Id" "r1" "g1"
  exact ⟨h.2.1 "c7" (by decide) (by decide), h.1⟩

namespace ContextLoggingAdapter

/-- The adapter state of `context_logging_20251128203653.py`: the
`self._context_manager` slot, holding the `Context` object (abstracted by its
initial values) while a scope is active and `None` otherwise. -/
structure State : Type where
  context_manager : Option ContextDict
deriving DecidableEq

/-- The state right after `__init__` (with the optional dependency present):
`self._context_manager = None`. -/
def fresh : State := ⟨none⟩

/-- `ContextLoggingAdapter.enter_context`: unconditionally builds a new
`Context(**initial_values)`, enters it, and overwrites
`self._context_manager` — also when a scope is already active; no state is
inspected and nothing is raised. -/
def enter_context (_s : State) (initial_values : ContextDict) : PyResult State :=
  .ok ⟨some initial_values⟩

/-- `ContextLoggingAdapter.exit_context` (lines 92-96): `if
self._context_manager is not None: ... __exit__ ...; self._context_manager =
None` — on a never-entered adapter the guard fails and the call silently does
nothing. -/
def exit_context (s : State) : PyResult State :=
  match s.context_manager with
  | none => .ok s
  | some _ => .ok ⟨none⟩

end ContextLoggingAdapter

/-- Claim C9, counterexample: exiting a Scope that was never entered does not
fail fast — `exit_context` on a fresh `ContextLoggingAdapter` succeeds
silently and leaves the state unchanged (the behaviour the repository's own
test `test_exit_without_enter` asserts), instead of surfacing an error. -/
theorem c9_usage_errors_counterexample :
    ContextLoggingAdapter.exit_context ContextLoggingAdapter.fresh
      = PyResult.ok ContextLoggingAdapter.fresh :=
  rfl

/-- Claim C9 (amended): out-of-order scope control is absorbed silently, not
failed fast: exiting a never-entered Scope is a no-op that returns
successfully with the state unchanged, re-entering an already-active Scope
object silently replaces the active context with the new one, and `exit`
never raises from any state. -/
theorem c9_usage_errors_amended (s : ContextLoggingAdapter.State)
    (init : ContextDict) :
    ContextLoggingAdapter.exit_context ContextLoggingAdapter.fresh
      = PyResult.ok ContextLoggingAdapter.fresh ∧
    ContextLoggingAdapter.enter_context s init = PyResult.ok ⟨some init⟩ ∧
    ∃ s2, ContextLoggingAdapter.exit_context s = PyResult.ok s2 := by
  refine ⟨rfl, rfl, ?_⟩
  obtain ⟨_ | m⟩ := s
  · exact ⟨_, rfl⟩
  · exact ⟨_, rfl⟩

/-- Looking up the key just assigned by dict assignment yields the assigned
value. -/
theorem dict_get_set_self {α : Type} (d : AssocDict α) (k : String) (v : α) :
    dict_get (dict_set d k v) k = some v := by
  induction d with
  | nil => simp [dict_set, dict_get]
  | cons p rest ih =>
    obtain ⟨k', v'⟩ := p
    by_cases h : k' = k
    · simp [dict_set, h, dict_get]
    · simp [dict_set, h, dict_get, ih]

/-- Dict assignment leaves every other key's lookup unchanged. -/
theorem dict_get_set_other {α : Type} (d : AssocDict α) (k k2 : String) (v : α)
    (h : k2 ≠ k) :
    dict_get (dict_set d k v) k2 = dict_get d k2 := by
  induction d with
  | nil => simp [dict_set, dict_get, Ne.symm h]
  | cons p rest ih =>
    obtain ⟨k', v'⟩ := p
    by_cases hk : k' = k
    · subst hk
      simp [dict_set, dict_get, Ne.symm h]
    · by_cases hk2 : k' = k2
      · subst hk2
        simp [dict_set, h, dict_get]
      · simp [dict_set, hk, dict_get, hk2, ih]

/-- One entry of a Python exception's `args` tuple as the enrichment protocol
uses it: the original message strings plus, after enrichment, the attached
context snapshot. -/
inductive ExcArg : Type
  | astr : String → ExcArg
  | actx : ContextDict → ExcArg
deriving DecidableEq

/-- A propagating Python exception as the scope-exit protocol observes it:
its `args` tuple and the boolean enrichment marker read by
`getattr(exc, "__context_logging__", False)`. -/
structure PyException : Type where
  args : List ExcArg
  marker : Bool
deriving DecidableEq

/-- Modelled from the spec: the exception-enrichment step of scope exit
(spec section 4.3). The shipped adapter's context-manager `__exit__` that
implements it is not in the repository snapshot; only its tests are
(`test_exception_gets_context_added`,
`test_exception_not_modified_if_already_has_context`,
`test_exception_not_modified_if_context_empty` in
`src/tests/adapters/test_contextvars.py`). If the scope's final map is empty,
or the failure already carries the marker, the failure is left completely
unchanged; otherwise the final snapshot is appended to its `args` and the
marker is set. The computation is total: enrichment itself never raises. -/
def enrich_exception (final_map : ContextDict) (e : PyException) : PyException :=
  if final_map = [] then e
  else if e.marker = true then e
  else { args := e.args ++ [ExcArg.actx final_map], marker := true }

/-- The scope's final map snapshot taken at exit time (`get_all` of the
active scope; an entered scope always holds a dict). -/
def final_snapshot (s : ContextVarsAdapter.State) : ContextDict :=
  s.ctx.getD []

/-- Modelled from the spec: scope exit while an unhandled failure propagates
(spec section 4.3); the test suite drives it through `with adapter:` blocks.
The final snapshot is taken, the failure is enriched at most once, the scope
is exited, and the (possibly enriched) original failure keeps propagating —
`__exit__` neither swallows it nor raises a new one. -/
def exit_with_exception (s : ContextVarsAdapter.State)
    (e : Option PyException) : ContextVarsAdapter.State × Option PyException :=
  match e with
  | none => (ContextVarsAdapter.exit_context s, none)
  | some ex =>
    (ContextVarsAdapter.exit_context s, some (enrich_exception (final_snapshot s) ex))

/-- Claim C4: for every scope state and propagating failure, exit enriches
exactly once and never suppresses: when the final map is non-empty and the
marker is unset, the snapshot is appended to the failure's `args` and the
marker is set; when the map is empty or the marker is already set, the
failure is returned completely unchanged; in every case the failure itself
still propagates out of `exit` (it is never replaced by `none`, and the
enrichment computation is total, so it never raises). -/
theorem c4_enrichment_exactly_once (s : ContextVarsAdapter.State)
    (e : PyException) :
    (exit_with_exception s (some e)).2
      = some (if final_snapshot s = [] ∨ e.marker = true then e
          else { args := e.args ++ [ExcArg.actx (final_snapshot s)],
                 marker := true }) ∧
    (exit_with_exception s (some e)).2 ≠ none ∧
    (exit_with_exception s none).2 = none := by
  refine ⟨?_, ?_, rfl⟩
  · by_cases h1 : final_snapshot s = [] <;> by_cases h2 : e.marker = true <;>
      simp [exit_with_exception, enrich_exception, h1, h2]
  · simp [exit_with_exception]

/-- Modelled from the spec: the fixed metadata key under which the codec
attaches the carrier (`REQUEST_CONTEXT_LABEL = "X-Request-Context"`, asserted
by `test_initialization`; the middleware module itself is not in the
repository snapshot). -/
def REQUEST_CONTEXT_LABEL : String := "X-Request-Context"

/-- A taskiq label value: an ordinary string label, or the carrier — the
JSON document holding an encoded context map. JSON serialization of these
flat documents is injective, so the carrier is modelled as the document it
denotes. -/
inductive LabelVal : Type
  | lstr : String → LabelVal
  | lctx : ContextDict → LabelVal
deriving DecidableEq

/-- A `TaskiqMessage` as the middleware's tests construct it: `task_id`,
`task_name`, `labels`, `args`, `kwargs`. -/
structure TaskiqMessage : Type where
  task_id : String
  task_name : String
  labels : AssocDict LabelVal
  args : List Val
  kwargs : AssocDict Val
deriving DecidableEq

/-- Modelled from the spec: `encode(current snapshot) -> carrier` of the
Boundary Propagation Codec (spec section 4.4) — strips the per-origin
boundary field `request_id`, preserves the correlation identifier and every
application-defined field, and maps the empty snapshot to a valid empty
carrier (the middleware module is in the repository only through
`test_pre_send_captures_context` and `test_pre_send_with_empty_context`). -/
def encode_context (snapshot : ContextDict) : ContextDict :=
  List.filter (fun p => p.1 != StandardContextField.REQUEST_ID) snapshot

/-- Modelled from the spec: `decode(carrier) -> Context Map`, the inverse of
`encode`; a missing or empty carrier yields the empty map and never raises
(spec section 4.4; `test_pre_execute_without_context_label`). -/
def decode_carrier : Option ContextDict → ContextDict
  | none => []
  | some d => d

/-- Unfolding `encode_context` over one entry. -/
theorem encode_context_cons (k : String) (v : Val) (rest : ContextDict) :
    encode_context ((k, v) :: rest)
      = if k = StandardContextField.REQUEST_ID then encode_context rest
        else (k, v) :: encode_context rest := by
  by_cases h : k = StandardContextField.REQUEST_ID <;>
    simp [encode_context, List.filter_cons, h]

/-- The encoded carrier never mentions `request_id`. -/
theorem dict_get_encode_request_id (m : ContextDict) :
    dict_get (encode_context m) StandardContextField.REQUEST_ID = none := by
  induction m with
  | nil => rfl
  | cons p rest ih =>
    obtain ⟨k, v⟩ := p
    rw [encode_context_cons]
    by_cases h : k = StandardContextField.REQUEST_ID
    · rw [if_pos h]
      exact ih
    · rw [if_neg h]
      simp [dict_get, h, ih]

/-- Encoding leaves the lookup of every key other than `request_id`
unchanged. -/
theorem dict_get_encode_other (m : ContextDict) (k : String)
    (hk : k ≠ StandardContextField.REQUEST_ID) :
    dict_get (encode_context m) k = dict_get m k := by
  induction m with
  | nil => rfl
  | cons p rest ih =>
    obtain ⟨k', v'⟩ := p
    rw [encode_context_cons]
    by_cases h : k' = StandardContextField.REQUEST_ID
    · rw [if_pos h]
      have hne : k' ≠ k := fun hc => hk (hc.symm.trans h)
      simp [dict_get, hne, ih]
    · rw [if_neg h]
      by_cases hkk : k' = k
      · simp [dict_get, hkk]
      · simp [dict_get, hkk, ih]

/-- Claim C5: for every context map, the carrier produced by `encode` never
contains the `request_id` field, while `correlation_id` and every other
(application-defined) field keep their lookup value; and `encode` of the
empty map is the valid empty carrier. -/
theorem c5_encode_filtering (m : ContextDict) :
    dict_get (encode_context m) StandardContextField.REQUEST_ID = none ∧
    (∀ k, k ≠ StandardContextField.REQUEST_ID →
      dict_get (encode_context m) k = dict_get m k) ∧
    encode_context [] = [] :=
  ⟨dict_get_encode_request_id m, fun k hk => dict_get_encode_other m k hk, rfl⟩

/-- Witness for claim C5 at the snapshot of `test_pre_send_captures_context`:
`request_id` is stripped, `correlation_id` and `user_id` survive with their
values. -/
theorem c5_encode_filtering_witness :
    dict_get
      (encode_context
        [(StandardContextField.CORRELATION_ID, Val.vstr "test-correlation-123"),
         (StandardContextField.REQUEST_ID, Val.vstr "should-be-removed"),
         ("user_id", Val.vint 42)])
      StandardContextField.REQUEST_ID = none ∧
    dict_get
      (encode_context
        [(StandardContextField.CORRELATION_ID, Val.vstr "test-correlation-123"),
         (StandardContextField.REQUEST_ID, Val.vstr "should-be-removed"),
         ("user_id", Val.vint 42)])
      "user_id" = some (Val.vint 42) := by
  have h := c5_encode_filtering
    [(StandardContextField.CORRELATION_ID, Val.vstr "test-correlation-123"),
     (StandardContextField.REQUEST_ID, Val.vstr "should-be-removed"),
     ("user_id", Val.vint 42)]
  refine ⟨h.1, ?_⟩
  rw [h.2.1 "user_id" (by decide)]
  decide

/-- Claim C6: codec round-trip. For every context map that contains no
boundary-filtered field (no `request_id` entry), decoding the carrier
produced by encoding it yields exactly the original map — every key/value
pair survives the hand-off unchanged. -/
theorem c6_roundtrip (m : ContextDict)
    (hm : ∀ p ∈ m, p.1 ≠ StandardContextField.REQUEST_ID) :
    decode_carrier (some (encode_context m)) = m := by
  induction m with
  | nil => rfl
  | cons p rest ih =>
    obtain ⟨k, v⟩ := p
    have hk : k ≠ StandardContextField.REQUEST_ID := hm (k, v) (List.mem_cons_self _ _)
    have hrest : ∀ q ∈ rest, q.1 ≠ StandardContextField.REQUEST_ID :=
      fun q hq => hm q (List.mem_cons_of_mem _ hq)
    have ih2 := ih hrest
    simp only [decode_carrier] at ih2 ⊢
    rw [encode_context_cons, if_neg hk, ih2]

/-- Witness for claim C6 at the carrier map of the task hand-off scenario:
`{correlation_id: "c1", user_id: 42}` round-trips unchanged. -/
theorem c6_roundtrip_witness :
    decode_carrier
      (some (encode_context
        [(StandardContextField.CORRELATION_ID, Val.vstr "c1"),
         ("user_id", Val.vint 42)]))
      = [(StandardContextField.CORRELATION_ID, Val.vstr "c1"),
         ("user_id", Val.vint 42)] :=
  c6_roundtrip _ (by decide)

/-- Modelled from the spec: `pre_send` of the taskiq middleware — serializes
the filtered snapshot and attaches it to the outgoing message's labels under
the fixed carrier label, touching nothing else
(`test_pre_send_preserves_existing_labels`). -/
def pre_send (snapshot : ContextDict) (message : TaskiqMessage) : TaskiqMessage :=
  { message with
    labels := dict_set message.labels REQUEST_CONTEXT_LABEL
      (LabelVal.lctx (encode_context snapshot)) }

/-- The carrier attached to a message's labels, when one is present. -/
def carrier_of (message : TaskiqMessage) : Option ContextDict :=
  match dict_get message.labels REQUEST_CONTEXT_LABEL with
  | some (LabelVal.lctx d) => some d
  | _ => none

/-- Modelled from the spec: `pre_execute` of the taskiq middleware — decodes
the carrier from the fixed label (absent label means the empty map), enters a
scope seeded with the decoded map plus the receiving message's own `task_id`
(never a carrier value), and returns the incoming message itself unmodified
(`test_pre_execute_restores_context`, `test_pre_execute_adds_task_id`,
`test_pre_execute_without_context_label`). -/
def pre_execute (s : ContextVarsAdapter.State) (message : TaskiqMessage) :
    ContextVarsAdapter.State × TaskiqMessage :=
  (ContextVarsAdapter.enter_context s
    (dict_set (decode_carrier (carrier_of message)) StandardContextField.TASK_ID
      (Val.vstr message.task_id)),
   message)

/-- Claim C7: receiving-side postcondition. `pre_execute` is a total
function (it never raises, also when the carrier label is absent — an absent
carrier decodes to the empty map), and in the scope it enters, `task_id`
reads as the receiving message's own task identifier — overriding any value
the carrier may have held — while every other key reads exactly as in the
decoded carrier map. -/
theorem c7_pre_execute_postcondition (s : ContextVarsAdapter.State)
    (message : TaskiqMessage) (k : String) :
    ContextVarsAdapter.get_value (pre_execute s message).1
      StandardContextField.TASK_ID
      = PyResult.ok (some (Val.vstr message.task_id)) ∧
    (k ≠ StandardContextField.TASK_ID →
      ContextVarsAdapter.get_value (pre_execute s message).1 k
        = PyResult.ok (dict_get (decode_carrier (carrier_of message)) k)) ∧
    decode_carrier none = [] := by
  refine ⟨?_, ?_, rfl⟩
  · simp [pre_execute, ContextVarsAdapter.enter_context,
      ContextVarsAdapter.get_value, dict_get_set_self]
  · intro hk
    simp [pre_execute, ContextVarsAdapter.enter_context,
      ContextVarsAdapter.get_value, dict_get_set_other _ _ _ _ hk]

/-- Witness for claim C7 at the message of
`test_pre_execute_without_context_label` (task id `task-999`, no carrier
label): `task_id` reads as `task-999` and an application key reads absent. -/
theorem c7_pre_execute_postcondition_witness :
    ContextVarsAdapter.get_value
      (pre_execute ContextVarsAdapter.initial
        ⟨"task-999", "test_task", [], [], []⟩).1
      StandardContextField.TASK_ID
      = PyResult.ok (some (Val.vstr "task-999")) ∧
    ContextVarsAdapter.get_value
      (pre_execute ContextVarsAdapter.initial
        ⟨"task-999", "test_task", [], [], []⟩).1
      "user_id" = PyResult.ok none := by
  have h := c7_pre_execute_postcondition ContextVarsAdapter.initial
    ⟨"task-999", "test_task", [], [], []⟩ "user_id"
  refine ⟨h.1, ?_⟩
  rw [h.2.1 (by decide)]
  decide

/-- Claim C10: frame property of the codec on carrier metadata. `pre_send`
leaves `task_id`, `task_name`, `args` and `kwargs` untouched and changes the
labels only at the fixed carrier label, where it stores the encoded
snapshot; every label under any other key keeps its prior value. And
`pre_execute` returns the incoming message itself unmodified. -/
theorem c10_pre_send_frame (snapshot : ContextDict) (message : TaskiqMessage)
    (k : String) :
    (pre_send snapshot message).task_id = message.task_id ∧
    (pre_send snapshot message).task_name = message.task_name ∧
    (pre_send snapshot message).args = message.args ∧
    (pre_send snapshot message).kwargs = message.kwargs ∧
    dict_get (pre_send snapshot message).labels REQUEST_CONTEXT_LABEL
      = some (LabelVal.lctx (encode_context snapshot)) ∧
    (k ≠ REQUEST_CONTEXT_LABEL →
      dict_get (pre_send snapshot message).labels k
        = dict_get message.labels k) ∧
    ∀ s : ContextVarsAdapter.State, (pre_execute s message).2 = message := by
  refine ⟨rfl, rfl, rfl, rfl, ?_, ?_, fun _ => rfl⟩
  · simp [pre_send, dict_get_set_self]
  · intro hk
    simp [pre_send, dict_get_set_other _ _ _ _ hk]

/-- Witness for claim C10 at the message of
`test_pre_send_preserves_existing_labels`: the preexisting label keeps its
value, the task id is unchanged, and the carrier label is present. -/
theorem c10_pre_send_frame_witness :
    dict_get
      (pre_send [("test_key", Val.vstr "test_value")]
        ⟨"task-123", "test_task",
         [("existing_label", LabelVal.lstr "existing_value")], [], []⟩).labels
      "existing_label" = some (LabelVal.lstr "existing_value") ∧
    (pre_send [("test_key", Val.vstr "test_value")]
      ⟨"task-123", "test_task",
       [("existing_label", LabelVal.lstr "existing_value")], [], []⟩).task_id
      = "task-123" := by
  have h := c10_pre_send_frame [("test_key", Val.vstr "test_value")]
    ⟨"task-123", "test_task",
     [("existing_label", LabelVal.lstr "existing_value")], [], []⟩
    "existing_label"
  refine ⟨?_, h.1⟩
  rw [h.2.2.2.2.2.1 (by decide)]
  decide
